import Mathlib

/-!
Shallow embedding of the probing/aggregation engine of `net-pinger`
(`src/ping.go`, package `src`).

Modelling conventions:
- The per-host record mirrors the Go struct `remoteInfo` (ip key, `isUp`,
  `pingsInState`, `gotReply`).  The engine record `PingState` mirrors the
  fields of the Go struct `Ping` that the round loop reads or writes
  (`aliveCount`, `deadCount`, `groupAlive`, `groupDead`, `send`, `pid`,
  `seq`, `totalAlive`, `isTotalAlive`); the logger and socket handles are
  collaborators outside the state.
- Go's `map[string]*remoteInfo` is an association list keyed by the
  address string (`ip.String()`), with insert-or-overwrite semantics.
  Go iterates maps in unspecified order; the embedding fixes insertion
  order.  Every property settled below is insensitive to that order
  (per-entry updates are independent, and the concrete traces use a
  single host).
- Machine integers: `seq` and `pid` are Go `uint16`, embedded as `Nat`
  reduced `% 65536` exactly where the Go code converts; `aliveCount`,
  `deadCount`, `groupAlive`, `groupDead` are Go `uint8` values (the pflag
  parser only produces values `< 256`); `pingsInState` and `totalAlive`
  are Go `int` (64-bit), embedded as unbounded `Int`: both move by one
  step per round, so 64-bit wraparound is unreachable on any physically
  realisable trace and is not modelled.
- Observable actions (the `log.Info` host transitions and the
  `runCommand` invocations of the alive/dead commands) are modelled as an
  emitted `Event` list; `log.Debug`/`log.Error` noise is either dropped or
  (for send failures, which claim C5 is about) collected as strings.
- One round of `Run` = increment `seq`, `sendRequests`, then
  `gatherResponses` where the inbound replies that arrive before the
  round's deadline are processed in arrival order, followed by the
  timeout sweep over all hosts without a reply.
-/

namespace NetPinger

/-- Go struct `remoteInfo` (ping.go lines 16-22): per-host mutable state.
The `addr`/`ip` fields are carried as the association-list key. -/
structure RemoteInfo where
  isUp : Bool
  pingsInState : Int
  gotReply : Bool
deriving DecidableEq

/-- Observable actions of the engine: the per-host transition records
(`log.Info "Remote host is alive/dead"`) and the group verdict actions
(`runCommand cmdAlive` / `runCommand cmdDead`). -/
inductive Event where
  | hostAlive : String → Event
  | hostDead : String → Event
  | groupAlive : Event
  | groupDead : Event
deriving DecidableEq

/-- Go struct `Ping` (ping.go lines 24-41), restricted to the fields the
round loop reads or writes. -/
structure PingState where
  aliveCount : Nat
  deadCount : Nat
  groupAlive : Nat
  groupDead : Nat
  cmdAlive : String
  cmdDead : String
  send : List (String × RemoteInfo)
  pid : Nat
  seq : Nat
  totalAlive : Int
  isTotalAlive : Bool
deriving DecidableEq

/-- A decoded inbound echo reply as delivered by the `recv` goroutine
(ping.go struct `icmpInfo`): source address and the `icmp.Echo` ID and
sequence fields.  On the wire both fields are 16 bits wide. -/
structure IcmpInfo where
  ip : String
  ident : Nat
  seq : Nat
deriving DecidableEq

/-- Configuration produced by `readArguments` (ping.go lines 259-309).
The pflag layer itself (which exits the process on a malformed flag
value) is the boundary; `readArguments` performs no validation of the
threshold values beyond what `Uint8Var` parsing imposes (each fits in a
`uint8`), and in particular never rejects a zero threshold. -/
structure Args where
  aliveCount : Nat
  deadCount : Nat
  groupAlive : Nat
  groupDead : Nat
  cmdAlive : String
  cmdDead : String
  ips : List String
deriving DecidableEq

/-- Lookup in the `send` map (Go `v, ok := p.send[s]`). -/
def mlookup : List (String × RemoteInfo) → String → Option RemoteInfo
  | [], _ => none
  | (k, v) :: rest, ip => if k = ip then some v else mlookup rest ip

/-- In-place update of one entry of the `send` map (Go mutates the entry
through the stored pointer). -/
def mupdate : List (String × RemoteInfo) → String → RemoteInfo → List (String × RemoteInfo)
  | [], _, _ => []
  | (k, v) :: rest, ip, nv =>
    if k = ip then (k, nv) :: rest else (k, v) :: mupdate rest ip nv

/-- Map insertion with overwrite (Go `p.send[ip.String()] = ...`). -/
def minsert (m : List (String × RemoteInfo)) (k : String) (v : RemoteInfo) :
    List (String × RemoteInfo) :=
  match mlookup m k with
  | some _ => mupdate m k v
  | none => m ++ [(k, v)]

/-- Initial per-host record built in `NewPingFromCommandLine` (ping.go
lines 62-70): `isUp: false, pingsInState: 0`; `gotReply` is the Go zero
value `false`. -/
def initRemote : RemoteInfo :=
  { isUp := false, pingsInState := 0, gotReply := false }

/-- Build the `send` map from the configured address list, in order. -/
def mkSendAux : List (String × RemoteInfo) → List String → List (String × RemoteInfo)
  | m, [] => m
  | m, ip :: rest => mkSendAux (minsert m ip initRemote) rest

def mkSend (ips : List String) : List (String × RemoteInfo) :=
  mkSendAux [] ips

/-- The non-transport part of `NewPingFromCommandLine` (ping.go lines
44-82): build the `send` map, truncate the identifier to `uint16`
(`uint16(addr.Port)` or `uint16(os.Getpid())`), and substitute the
group-alive default: `if p.groupAlive == 0 { p.groupAlive =
uint8(len(p.ips)) }` — note the `uint8` truncation of the list length. -/
def mkState (pid : Nat) (a : Args) : PingState :=
  { aliveCount := a.aliveCount
    deadCount := a.deadCount
    groupAlive := if a.groupAlive = 0 then a.ips.length % 256 else a.groupAlive
    groupDead := a.groupDead
    cmdAlive := a.cmdAlive
    cmdDead := a.cmdDead
    send := mkSend a.ips
    pid := pid % 65536
    seq := 0
    totalAlive := 0
    isTotalAlive := false }

/-- `NewPingFromCommandLine` error structure: the only fallible step is
opening the ICMP listening socket (`icmp.ListenPacket`); its result is a
parameter (`conn` carries the local identifier on success).  Every other
step, including all threshold handling, is infallible. -/
def newPing (conn : Except String Nat) (a : Args) : Except String PingState :=
  match conn with
  | .error e => .error e
  | .ok pid => .ok (mkState pid a)

/-- Go `p.handleHostAlive()` (ping.go lines 175-182): unconditionally
increment `totalAlive`; if the group verdict was dead and the new count
reaches `groupAlive`, run the alive command and flip the verdict. -/
def handleHostAlive (p : PingState) : PingState × List Event :=
  if p.isTotalAlive = false ∧ (p.groupAlive : Int) ≤ p.totalAlive + 1 then
    ({ p with totalAlive := p.totalAlive + 1, isTotalAlive := true }, [Event.groupAlive])
  else
    ({ p with totalAlive := p.totalAlive + 1 }, [])

/-- Go `p.handleHostDead()` (ping.go lines 184-191): unconditionally
decrement `totalAlive`; if the group verdict was alive and the new count
has fallen to `groupDead`, run the dead command and flip the verdict. -/
def handleHostDead (p : PingState) : PingState × List Event :=
  if p.isTotalAlive = true ∧ p.totalAlive - 1 ≤ (p.groupDead : Int) then
    ({ p with totalAlive := p.totalAlive - 1, isTotalAlive := false }, [Event.groupDead])
  else
    ({ p with totalAlive := p.totalAlive - 1 }, [])

/-- The reply-side counter update (ping.go lines 157-163): first reply
after a down phase flips `isUp` and resets the streak to 1, otherwise the
streak increments; `gotReply` is set either way. -/
def bumpReply (v : RemoteInfo) : RemoteInfo :=
  if v.isUp = false then
    { isUp := true, pingsInState := 1, gotReply := true }
  else
    { v with pingsInState := v.pingsInState + 1, gotReply := true }

/-- The timeout-side counter update (ping.go lines 134-139): first
timeout after an up phase flips `isUp` off and resets the streak to 1,
otherwise the streak increments; `gotReply` is untouched. -/
def bumpTimeout (v : RemoteInfo) : RemoteInfo :=
  if v.isUp = true then
    { isUp := false, pingsInState := 1, gotReply := v.gotReply }
  else
    { v with pingsInState := v.pingsInState + 1 }

/-- Processing of one inbound reply inside the select loop (ping.go lines
150-171).  A reply from an unmonitored address, or whose `uint16`-viewed
identifier or sequence number differs from the engine's, is skipped
(`continue`) without touching any state.  Otherwise the host record is
updated and, exactly when the updated streak equals `aliveCount`, the
host-alive record is emitted and `handleHostAlive` runs. -/
def processReply (p : PingState) (i : IcmpInfo) : PingState × List Event :=
  match mlookup p.send i.ip with
  | none => (p, [])
  | some v =>
    if i.ident % 65536 = p.pid ∧ i.seq % 65536 = p.seq then
      if (bumpReply v).pingsInState = (p.aliveCount : Int) then
        ((handleHostAlive { p with send := mupdate p.send i.ip (bumpReply v) }).1,
          Event.hostAlive i.ip ::
            (handleHostAlive { p with send := mupdate p.send i.ip (bumpReply v) }).2)
      else
        ({ p with send := mupdate p.send i.ip (bumpReply v) }, [])
    else
      (p, [])

/-- Processing of one host in the deadline sweep (ping.go lines 132-147):
hosts that replied this round are skipped; otherwise the timeout update
runs and, exactly when the updated streak equals `deadCount`, the
host-dead record is emitted and `handleHostDead` runs. -/
def timeoutOne (p : PingState) (ip : String) : PingState × List Event :=
  match mlookup p.send ip with
  | none => (p, [])
  | some v =>
    if v.gotReply = true then (p, [])
    else
      if (bumpTimeout v).pingsInState = (p.deadCount : Int) then
        ((handleHostDead { p with send := mupdate p.send ip (bumpTimeout v) }).1,
          Event.hostDead ip ::
            (handleHostDead { p with send := mupdate p.send ip (bumpTimeout v) }).2)
      else
        ({ p with send := mupdate p.send ip (bumpTimeout v) }, [])

/-- The replies that arrive before the round deadline, processed in
arrival order. -/
def replyLoop : PingState → List IcmpInfo → PingState × List Event
  | p, [] => (p, [])
  | p, i :: rest =>
    ((replyLoop (processReply p i).1 rest).1,
      (processReply p i).2 ++ (replyLoop (processReply p i).1 rest).2)

/-- The deadline sweep over the given keys of the `send` map. -/
def timeoutLoop : PingState → List String → PingState × List Event
  | p, [] => (p, [])
  | p, ip :: rest =>
    ((timeoutLoop (timeoutOne p ip).1 rest).1,
      (timeoutOne p ip).2 ++ (timeoutLoop (timeoutOne p ip).1 rest).2)

/-- Go `p.gatherResponses(recv)` (ping.go lines 124-173) for one round:
process the replies that beat the deadline, then sweep every host that
has not replied. -/
def gatherResponses (p : PingState) (evs : List IcmpInfo) : PingState × List Event :=
  ((timeoutLoop (replyLoop p evs).1 ((replyLoop p evs).1.send.map Prod.fst)).1,
    (replyLoop p evs).2 ++
      (timeoutLoop (replyLoop p evs).1 ((replyLoop p evs).1.send.map Prod.fst)).2)

/-- Ones-complement fold used by the ICMP checksum. -/
def icmpFold (s : Nat) : Nat := s % 65536 + s / 65536

/-- Wire marshalling of the fixed echo request (ping.go lines 101-113):
`icmp.Message.Marshal` can only fail when the message type is not an
`icmp.Type` or the body fails to marshal; for the constant
`ipv4.ICMPTypeEcho` message with an `icmp.Echo` body and empty data
neither happens, so the result is always `ok` — the RFC 792 echo frame:
type 8, code 0, checksum, identifier, sequence number. -/
def marshalEcho (pid seq : Nat) : Except String (List Nat) :=
  Except.ok
    [8, 0,
      (65535 - icmpFold (icmpFold (2048 + pid % 65536 + seq % 65536))) / 256,
      (65535 - icmpFold (icmpFold (2048 + pid % 65536 + seq % 65536))) % 256,
      pid % 65536 / 256, pid % 65536 % 256,
      seq % 65536 / 256, seq % 65536 % 256]

/-- Reset of every `gotReply` flag at the start of the round (ping.go
line 116). -/
def resetGotReply (p : PingState) : PingState :=
  { p with send := p.send.map (fun kv => (kv.1, { kv.2 with gotReply := false })) }

/-- The error records logged for hosts whose `conn.WriteTo` failed this
round (ping.go lines 117-119); `fail` is the oracle saying which sends
fail.  The failures are logged and the loop continues. -/
def sendLogs (fail : String → Bool) (p : PingState) : List String :=
  ((p.send.map Prod.fst).filter fail).map
    (fun ip => "Failed to send ICMP message to " ++ ip)

/-- Go `p.sendRequests()` (ping.go lines 100-122): marshal the echo
request once, then per host reset `gotReply` and send, logging (and
otherwise ignoring) individual send failures.  The only `return err`
path is the marshal failure. -/
def sendRequests (fail : String → Bool) (p : PingState) :
    Except String (PingState × List String) :=
  match marshalEcho p.pid p.seq with
  | .error e => .error e
  | .ok _ => .ok (resetGotReply p, sendLogs fail p)

/-- The `p.seq++` at the top of the `Run` loop (ping.go line 88), with
`uint16` wraparound. -/
def bumpSeq (p : PingState) : PingState :=
  { p with seq := (p.seq + 1) % 65536 }

/-- One iteration of the `Run` loop (ping.go lines 84-98): bump the
sequence number, send the requests (propagating a send-side `return err`,
which in fact never occurs), then gather this round's responses.  The
result carries the new state, the emitted events and the logged send
failures. -/
def runRound (fail : String → Bool) (evs : List IcmpInfo) (p : PingState) :
    Except String (PingState × List Event × List String) :=
  match sendRequests fail (bumpSeq p) with
  | .error e => .error e
  | .ok (p1, logs) => .ok ((gatherResponses p1 evs).1, (gatherResponses p1 evs).2, logs)

/-- Finitely many iterations of the `Run` loop; `rounds` lists, per
round, the matching-window replies that arrive before the deadline.  The
per-round event lists are collected. -/
def runTrace (fail : String → Bool) :
    List (List IcmpInfo) → PingState → Except String (PingState × List (List Event))
  | [], p => .ok (p, [])
  | evs :: rest, p =>
    match runRound fail evs p with
    | .error e => .error e
    | .ok (p1, res, _) =>
      match runTrace fail rest p1 with
      | .error e => .error e
      | .ok (p2, traces) => .ok (p2, res :: traces)

/-- Total extraction of a trace result (the error branch, provably dead,
returns the unchanged state). -/
def traceOut (fail : String → Bool) (rounds : List (List IcmpInfo)) (p : PingState) :
    PingState × List (List Event) :=
  match runTrace fail rounds p with
  | .ok r => r
  | .error _ => (p, [])

/-- Boolean success test for an `Except` result. -/
def isOkE {α : Type} : Except String α → Bool
  | .ok _ => true
  | .error _ => false

/-- The state part of one round (total form, used through
`runRound_eq`). -/
def roundState (evs : List IcmpInfo) (p : PingState) : PingState :=
  (gatherResponses (resetGotReply (bumpSeq p)) evs).1

/-- The events of one round (total form). -/
def roundEvents (evs : List IcmpInfo) (p : PingState) : List Event :=
  (gatherResponses (resetGotReply (bumpSeq p)) evs).2

/-- Total form of a finite run. -/
def traceRun : List (List IcmpInfo) → PingState → PingState × List (List Event)
  | [], p => (p, [])
  | evs :: rest, p =>
    ((traceRun rest (roundState evs p)).1,
      roundEvents evs p :: (traceRun rest (roundState evs p)).2)

/-- Event filter: `true` on everything except a host-alive record. -/
def notHostAliveEv : Event → Bool
  | Event.hostAlive _ => false
  | _ => true

/-- Event filter: `true` on everything except a host-dead record. -/
def notHostDeadEv : Event → Bool
  | Event.hostDead _ => false
  | _ => true

/-- No host-alive record occurs in the list. -/
def noHostAlive (l : List Event) : Bool := l.all notHostAliveEv

/-- No host-dead record occurs in the list. -/
def noHostDead (l : List Event) : Bool := l.all notHostDeadEv

/-- Selector for host-up transition records. -/
def isHostUpEvent : Event → Bool
  | Event.hostAlive _ => true
  | _ => false

theorem runRound_eq (fail : String → Bool) (evs : List IcmpInfo) (p : PingState) :
    runRound fail evs p =
      Except.ok (roundState evs p, roundEvents evs p, sendLogs fail (bumpSeq p)) := rfl

theorem runTrace_eq (fail : String → Bool) :
    ∀ (rounds : List (List IcmpInfo)) (p : PingState),
      runTrace fail rounds p = Except.ok (traceRun rounds p)
  | [], _ => rfl
  | evs :: rest, p => by
    simp only [runTrace, runRound_eq, runTrace_eq fail rest, traceRun]

theorem traceOut_eq (fail : String → Bool) (rounds : List (List IcmpInfo)) (p : PingState) :
    traceOut fail rounds p = traceRun rounds p := by
  rw [traceOut, runTrace_eq]

/-! ### Concrete scenario inputs -/

/-- Send oracle with no failures. -/
def noFail : String → Bool := fun _ => false

/-- The single monitored address of the concrete scenarios. -/
def host1 : String := "10.0.0.1"

/-- One address, default thresholds (`--alive-count 3 --dead-count 3`,
group flags left at their defaults). -/
def args1 : Args :=
  { aliveCount := 3, deadCount := 3, groupAlive := 0, groupDead := 0,
    cmdAlive := "", cmdDead := "", ips := [host1] }

/-- One address, both host thresholds configured as 0. -/
def args0 : Args :=
  { aliveCount := 0, deadCount := 0, groupAlive := 0, groupDead := 0,
    cmdAlive := "", cmdDead := "", ips := [host1] }

/-- A matching reply from `host1` for round `s` of the concrete engine
(identifier 1, the engine's own). -/
def reply1 (s : Nat) : IcmpInfo := { ip := host1, ident := 1, seq := s }

/-- Three straight timeout rounds for the single host. -/
def rounds3T : List (List IcmpInfo) := [[], [], []]

/-- Scenario A of the spec: timeout, then three straight replies. -/
def roundsA : List (List IcmpInfo) := [[], [reply1 2], [reply1 3], [reply1 4]]

/-- A flap: three replies (up), one timeout, three replies again. -/
def roundsFlap : List (List IcmpInfo) :=
  [[reply1 1], [reply1 2], [reply1 3], [], [reply1 5], [reply1 6], [reply1 7]]

/-- Addresses "0" .. "255": 256 distinct monitored addresses on the
command line. -/
def addrs256 : List String := (List.range 256).map (fun n => Nat.repr n)

/-- 256 addresses, group thresholds left unconfigured. -/
def argsBig : Args :=
  { aliveCount := 3, deadCount := 3, groupAlive := 0, groupDead := 0,
    cmdAlive := "", cmdDead := "", ips := addrs256 }

/-! ### Claim theorems -/

/-- C1: the claimed invariant `0 <= upCount <= total host count` (with
`upCount` the number of hosts in state Up) fails on the code.  With one
monitored host, default thresholds, and three consecutive timed-out
rounds from the initial Down state, `handleHostDead` fires on the third
round and drives `totalAlive` to `-1` while the single host is (and
always was) down. -/
theorem c1_up_count_invariant_fails :
    (traceOut noFail rounds3T (mkState 1 args1)).1.totalAlive = -1 ∧
    (traceOut noFail rounds3T (mkState 1 args1)).1.send.map (fun kv => kv.2.isUp) =
      [false] ∧
    (traceOut noFail rounds3T (mkState 1 args1)).1.send.length = 1 := by decide

/-- C2: the claim that a host which starts Down and never became Up emits
no `HostBecameDown` fails on the code.  Starting from the initial state,
three consecutive timeouts make the streak reach `deadCount` and the code
emits the host-dead record (and runs `handleHostDead`) although the host
was never Up. -/
theorem c2_dead_event_from_never_up_host :
    (traceOut noFail rounds3T (mkState 1 args1)).2 =
      [[], [], [Event.hostDead host1]] := by decide

/-- C3: the claim that `HostBecameUp` is never re-emitted without an
intervening `HostBecameDown` fails on the code.  After the host comes up
(round 3), a single timed-out round (shorter than `deadCount = 3`, so no
`HostBecameDown` fires) followed by three replied rounds makes the streak
reach `aliveCount` again and the host-alive record is emitted a second
time — `totalAlive` is double-counted. -/
theorem c3_host_alive_reemitted_after_flap :
    (traceOut noFail roundsFlap (mkState 1 args1)).2 =
      [[], [], [Event.hostAlive host1, Event.groupAlive], [], [], [],
        [Event.hostAlive host1]] ∧
    (traceOut noFail roundsFlap (mkState 1 args1)).1.totalAlive = 2 := by decide

/-- C8: Scenario A confirmed.  One host, `aliveCount = 3`, outcomes
[TimedOut, Replied, Replied, Replied]: no host-up transition is emitted
in rounds 1-3 and `HostBecameUp` is emitted exactly in round 4, on the
third consecutive reply. -/
theorem c8_scenario_a :
    (traceOut noFail roundsA (mkState 1 args1)).2.map (fun l => l.filter isHostUpEvent) =
      [[], [], [], [Event.hostAlive host1]] := by decide

/-- C4 counterexample: a configuration with every hysteresis threshold
equal to 0 is not rejected — construction succeeds and the engine runs a
round. -/
theorem c4_zero_thresholds_not_rejected :
    isOkE (newPing (Except.ok 1) args0) = true ∧
    isOkE (runTrace noFail [[]] (mkState 1 args0)) = true := by decide

/-- C4 (amended): `readArguments`/`NewPingFromCommandLine` perform no
threshold validation at all: for every configuration the construction
succeeds whenever the transport opens, and only a transport failure
propagates. -/
theorem c4_no_threshold_validation_exists (pid : Nat) (a : Args) (e : String) :
    isOkE (newPing (Except.ok pid) a) = true ∧
    newPing (Except.error e) a = Except.error e :=
  ⟨rfl, rfl⟩

/-- C5: `Run` never returns an error once started.  Every finite prefix
of the round loop yields `ok`; the resulting state and emitted events do
not depend on which per-host sends failed (failures are only logged); and
only the transport-construction failure propagates out of the entry
point. -/
theorem c5_round_errors_absorbed (fail fail2 : String → Bool)
    (rounds : List (List IcmpInfo)) (evs : List IcmpInfo) (p : PingState)
    (e : String) (a : Args) :
    isOkE (runTrace fail rounds p) = true ∧
    (runRound fail evs p).map (fun r => (r.1, r.2.1)) =
      (runRound fail2 evs p).map (fun r => (r.1, r.2.1)) ∧
    newPing (Except.error e) a = Except.error e := by
  refine ⟨?_, ?_, rfl⟩
  · rw [runTrace_eq]; rfl
  · rw [runRound_eq, runRound_eq]; rfl

/-- C6: a reply whose source address is not monitored, or whose
identifier or sequence number (16-bit wire fields, hence the `< 65536`
bounds) differs from the engine's current values, leaves the entire
engine state unchanged and emits nothing.  In particular a reply carrying
the previous round's sequence number is dropped. -/
theorem c6_mismatched_reply_ignored (p : PingState) (i : IcmpInfo)
    (hid : i.ident < 65536) (hseq : i.seq < 65536)
    (h : mlookup p.send i.ip = none ∨ i.ident ≠ p.pid ∨ i.seq ≠ p.seq) :
    processReply p i = (p, []) := by
  unfold processReply
  cases hm : mlookup p.send i.ip with
  | none => rfl
  | some v =>
    have hnm : ¬(i.ident % 65536 = p.pid ∧ i.seq % 65536 = p.seq) := by
      rw [Nat.mod_eq_of_lt hid, Nat.mod_eq_of_lt hseq]
      rcases h with h | h | h
      · rw [hm] at h; cases h
      · exact fun hc => h hc.1
      · exact fun hc => h hc.2
    simp [hnm]

theorem c6_witness :
    processReply (mkState 1 args1) { ip := host1, ident := 1, seq := 5 } =
      (mkState 1 args1, []) :=
  c6_mismatched_reply_ignored (mkState 1 args1) { ip := host1, ident := 1, seq := 5 }
    (by decide) (by decide) (Or.inr (Or.inr (by decide)))

set_option maxRecDepth 8192 in
/-- C7 counterexample: with 256 monitored addresses and the group-alive
threshold unconfigured, the effective threshold is `uint8(256) = 0`, not
the monitored-host count. -/
theorem c7_default_threshold_truncated :
    (mkState 1 argsBig).groupAlive = 0 ∧ argsBig.ips.length = 256 ∧
    (mkState 1 argsBig).groupAlive ≠ argsBig.ips.length := by decide

/-- C7 (amended): `handleHostAlive` increments `totalAlive` by one and
flips the verdict to alive, emitting the alive action exactly once, iff
the verdict was dead and the incremented count reaches `groupAlive`;
`handleHostDead` decrements and flips to dead, emitting the dead action
exactly once, iff the verdict was alive and the decremented count has
fallen to `groupDead`; an unconfigured group-alive threshold defaults to
the address count truncated to `uint8` (the count itself whenever fewer
than 256 addresses are configured), and an unconfigured group-dead
threshold stays 0. -/
theorem c7_group_aggregator (p : PingState) (pid ac dc gd : Nat) (ca cd : String)
    (ips : List String) :
    (handleHostAlive p).1.totalAlive = p.totalAlive + 1 ∧
    ((handleHostAlive p).2 = [Event.groupAlive] ↔
      p.isTotalAlive = false ∧ (p.groupAlive : Int) ≤ p.totalAlive + 1) ∧
    ((handleHostAlive p).2 = [Event.groupAlive] ∨ (handleHostAlive p).2 = []) ∧
    ((handleHostAlive p).1.isTotalAlive = true ↔
      (p.isTotalAlive = true ∨ (p.groupAlive : Int) ≤ p.totalAlive + 1)) ∧
    (handleHostDead p).1.totalAlive = p.totalAlive - 1 ∧
    ((handleHostDead p).2 = [Event.groupDead] ↔
      p.isTotalAlive = true ∧ p.totalAlive - 1 ≤ (p.groupDead : Int)) ∧
    ((handleHostDead p).2 = [Event.groupDead] ∨ (handleHostDead p).2 = []) ∧
    ((handleHostDead p).1.isTotalAlive = false ↔
      (p.isTotalAlive = false ∨ p.totalAlive - 1 ≤ (p.groupDead : Int))) ∧
    (mkState pid ⟨ac, dc, 0, gd, ca, cd, ips⟩).groupAlive = ips.length % 256 ∧
    (mkState pid ⟨ac, dc, 0, gd, ca, cd, ips⟩).groupDead = gd := by
  cases hb : p.isTotalAlive <;>
    by_cases hle : (p.groupAlive : Int) ≤ p.totalAlive + 1 <;>
      by_cases hld : p.totalAlive - 1 ≤ (p.groupDead : Int) <;>
        simp [handleHostAlive, handleHostDead, mkState, hb, hle, hld]

set_option maxRecDepth 8192 in
/-- C10 counterexample: with 256 addresses, the explicitly configured
value 0 yields an effective group-alive threshold of 0, not the number of
monitored addresses. -/
theorem c10_zero_config_truncated :
    argsBig.groupAlive = 0 ∧
    (mkState 1 argsBig).groupAlive ≠ argsBig.ips.length := by decide

/-- C10 (amended): a configured group-alive value of 0 is replaced by the
address count truncated to `uint8` — for fewer than 256 addresses this is
the address count itself, and then no configured value at all (every
`uint8`) can produce an effective threshold of 0, so the policy "alive
when at least 0 hosts are up" is inexpressible below 256 addresses. -/
theorem c10_zero_group_alive_is_count (pid ac dc g gd : Nat) (ca cd : String)
    (ips : List String) (h1 : 0 < ips.length) (h2 : ips.length < 256) :
    (mkState pid ⟨ac, dc, 0, gd, ca, cd, ips⟩).groupAlive = ips.length ∧
    (mkState pid ⟨ac, dc, g, gd, ca, cd, ips⟩).groupAlive ≠ 0 := by
  constructor
  · simp [mkState, Nat.mod_eq_of_lt h2]
  · by_cases hg : g = 0
    · have hne : ips.length ≠ 0 := Nat.pos_iff_ne_zero.mp h1
      simp [mkState, hg, Nat.mod_eq_of_lt h2, hne]
    · simp [mkState, hg]

/-! ### The zero-threshold development (claim C9)

Every streak counter in the map stays nonnegative, so the value compared
against a threshold — always the counter after a bump — is at least 1 and
can never equal a zero threshold. -/

/-- Every streak counter in the `send` map is nonnegative. -/
def StreakNonneg (p : PingState) : Prop :=
  ∀ kv ∈ p.send, 0 ≤ kv.2.pingsInState

theorem mlookup_mem {m : List (String × RemoteInfo)} {k : String} {v : RemoteInfo}
    (h : mlookup m k = some v) : (k, v) ∈ m := by
  induction m with
  | nil => simp [mlookup] at h
  | cons kv rest ih =>
    obtain ⟨k1, v1⟩ := kv
    simp only [mlookup] at h
    by_cases hk : k1 = k
    · rw [if_pos hk] at h
      injection h with h
      rw [← hk, ← h]
      exact List.mem_cons_self _ _
    · rw [if_neg hk] at h
      exact List.mem_cons_of_mem _ (ih h)

theorem mupdate_mem {m : List (String × RemoteInfo)} {k : String} {nv : RemoteInfo}
    {kv : String × RemoteInfo} (h : kv ∈ mupdate m k nv) : kv ∈ m ∨ kv = (k, nv) := by
  induction m with
  | nil => simp [mupdate] at h
  | cons kv1 rest ih =>
    obtain ⟨k1, v1⟩ := kv1
    simp only [mupdate] at h
    by_cases hk : k1 = k
    · rw [if_pos hk] at h
      rcases List.mem_cons.mp h with h | h
      · right; rw [h, hk]
      · left; exact List.mem_cons_of_mem _ h
    · rw [if_neg hk] at h
      rcases List.mem_cons.mp h with h | h
      · left; rw [h]; exact List.mem_cons_self _ _
      · rcases ih h with h | h
        · left; exact List.mem_cons_of_mem _ h
        · right; exact h

theorem noHostAlive_append (l1 l2 : List Event) :
    noHostAlive (l1 ++ l2) = (noHostAlive l1 && noHostAlive l2) := by
  simp [noHostAlive, List.all_append]

theorem noHostDead_append (l1 l2 : List Event) :
    noHostDead (l1 ++ l2) = (noHostDead l1 && noHostDead l2) := by
  simp [noHostDead, List.all_append]

theorem handleHostAlive_facts (p : PingState) :
    (handleHostAlive p).1.send = p.send ∧
    (handleHostAlive p).1.aliveCount = p.aliveCount ∧
    (handleHostAlive p).1.deadCount = p.deadCount ∧
    noHostAlive (handleHostAlive p).2 = true ∧
    noHostDead (handleHostAlive p).2 = true := by
  unfold handleHostAlive
  split <;> exact ⟨rfl, rfl, rfl, rfl, rfl⟩

theorem handleHostDead_facts (p : PingState) :
    (handleHostDead p).1.send = p.send ∧
    (handleHostDead p).1.aliveCount = p.aliveCount ∧
    (handleHostDead p).1.deadCount = p.deadCount ∧
    noHostAlive (handleHostDead p).2 = true ∧
    noHostDead (handleHostDead p).2 = true := by
  unfold handleHostDead
  split <;> exact ⟨rfl, rfl, rfl, rfl, rfl⟩

theorem bumpReply_pos (v : RemoteInfo) (h : 0 ≤ v.pingsInState) :
    1 ≤ (bumpReply v).pingsInState := by
  unfold bumpReply
  split
  · exact le_refl 1
  · show 1 ≤ v.pingsInState + 1
    omega

theorem bumpTimeout_pos (v : RemoteInfo) (h : 0 ≤ v.pingsInState) :
    1 ≤ (bumpTimeout v).pingsInState := by
  unfold bumpTimeout
  split
  · exact le_refl 1
  · show 1 ≤ v.pingsInState + 1
    omega

theorem processReply_none (p : PingState) (i : IcmpInfo)
    (hm : mlookup p.send i.ip = none) : processReply p i = (p, []) := by
  unfold processReply
  rw [hm]

theorem processReply_some (p : PingState) (i : IcmpInfo) (v : RemoteInfo)
    (hm : mlookup p.send i.ip = some v) :
    processReply p i =
      if i.ident % 65536 = p.pid ∧ i.seq % 65536 = p.seq then
        if (bumpReply v).pingsInState = (p.aliveCount : Int) then
          ((handleHostAlive { p with send := mupdate p.send i.ip (bumpReply v) }).1,
            Event.hostAlive i.ip ::
              (handleHostAlive { p with send := mupdate p.send i.ip (bumpReply v) }).2)
        else
          ({ p with send := mupdate p.send i.ip (bumpReply v) }, [])
      else
        (p, []) := by
  unfold processReply
  rw [hm]

theorem timeoutOne_none (p : PingState) (ip : String)
    (hm : mlookup p.send ip = none) : timeoutOne p ip = (p, []) := by
  unfold timeoutOne
  rw [hm]

theorem timeoutOne_some (p : PingState) (ip : String) (v : RemoteInfo)
    (hm : mlookup p.send ip = some v) :
    timeoutOne p ip =
      if v.gotReply = true then (p, [])
      else
        if (bumpTimeout v).pingsInState = (p.deadCount : Int) then
          ((handleHostDead { p with send := mupdate p.send ip (bumpTimeout v) }).1,
            Event.hostDead ip ::
              (handleHostDead { p with send := mupdate p.send ip (bumpTimeout v) }).2)
        else
          ({ p with send := mupdate p.send ip (bumpTimeout v) }, []) := by
  unfold timeoutOne
  rw [hm]

theorem minsert_some (m : List (String × RemoteInfo)) (k : String)
    (v w : RemoteInfo) (hm : mlookup m k = some w) : minsert m k v = mupdate m k v := by
  unfold minsert
  rw [hm]

theorem minsert_none (m : List (String × RemoteInfo)) (k : String) (v : RemoteInfo)
    (hm : mlookup m k = none) : minsert m k v = m ++ [(k, v)] := by
  unfold minsert
  rw [hm]

theorem processReply_facts (p : PingState) (i : IcmpInfo) (h : StreakNonneg p) :
    StreakNonneg (processReply p i).1 ∧
    (processReply p i).1.aliveCount = p.aliveCount ∧
    (processReply p i).1.deadCount = p.deadCount ∧
    (p.aliveCount = 0 → noHostAlive (processReply p i).2 = true) ∧
    noHostDead (processReply p i).2 = true := by
  cases hm : mlookup p.send i.ip with
  | none =>
    rw [processReply_none p i hm]
    exact ⟨h, rfl, rfl, fun _ => rfl, rfl⟩
  | some v =>
    rw [processReply_some p i v hm]
    by_cases hc : i.ident % 65536 = p.pid ∧ i.seq % 65536 = p.seq
    · rw [if_pos hc]
      have hv : 0 ≤ v.pingsInState := h (i.ip, v) (mlookup_mem hm)
      have hb : 1 ≤ (bumpReply v).pingsInState := bumpReply_pos v hv
      have hs : StreakNonneg { p with send := mupdate p.send i.ip (bumpReply v) } := by
        intro kv hkv
        rcases mupdate_mem hkv with hkv | hkv
        · exact h kv hkv
        · rw [hkv]; exact le_trans zero_le_one hb
      by_cases ht : (bumpReply v).pingsInState = (p.aliveCount : Int)
      · rw [if_pos ht]
        refine ⟨?_, ?_, ?_, ?_, ?_⟩
        · intro kv hkv
          rw [(handleHostAlive_facts _).1] at hkv
          exact hs kv hkv
        · exact (handleHostAlive_facts _).2.1
        · exact (handleHostAlive_facts _).2.2.1
        · intro h0
          exfalso
          rw [h0] at ht
          simp at ht
          omega
        · have hd := (handleHostAlive_facts
            { p with send := mupdate p.send i.ip (bumpReply v) }).2.2.2.2
          simp [noHostDead, notHostDeadEv] at hd ⊢
          exact hd
      · rw [if_neg ht]
        exact ⟨hs, rfl, rfl, fun _ => rfl, rfl⟩
    · rw [if_neg hc]
      exact ⟨h, rfl, rfl, fun _ => rfl, rfl⟩

theorem timeoutOne_facts (p : PingState) (ip : String) (h : StreakNonneg p) :
    StreakNonneg (timeoutOne p ip).1 ∧
    (timeoutOne p ip).1.aliveCount = p.aliveCount ∧
    (timeoutOne p ip).1.deadCount = p.deadCount ∧
    noHostAlive (timeoutOne p ip).2 = true ∧
    (p.deadCount = 0 → noHostDead (timeoutOne p ip).2 = true) := by
  cases hm : mlookup p.send ip with
  | none =>
    rw [timeoutOne_none p ip hm]
    exact ⟨h, rfl, rfl, rfl, fun _ => rfl⟩
  | some v =>
    rw [timeoutOne_some p ip v hm]
    by_cases hg : v.gotReply = true
    · rw [if_pos hg]
      exact ⟨h, rfl, rfl, rfl, fun _ => rfl⟩
    · rw [if_neg hg]
      have hv : 0 ≤ v.pingsInState := h (ip, v) (mlookup_mem hm)
      have hb : 1 ≤ (bumpTimeout v).pingsInState := bumpTimeout_pos v hv
      have hs : StreakNonneg { p with send := mupdate p.send ip (bumpTimeout v) } := by
        intro kv hkv
        rcases mupdate_mem hkv with hkv | hkv
        · exact h kv hkv
        · rw [hkv]; exact le_trans zero_le_one hb
      by_cases ht : (bumpTimeout v).pingsInState = (p.deadCount : Int)
      · rw [if_pos ht]
        refine ⟨?_, ?_, ?_, ?_, ?_⟩
        · intro kv hkv
          rw [(handleHostDead_facts _).1] at hkv
          exact hs kv hkv
        · exact (handleHostDead_facts _).2.1
        · exact (handleHostDead_facts _).2.2.1
        · have ha := (handleHostDead_facts
            { p with send := mupdate p.send ip (bumpTimeout v) }).2.2.2.1
          simp [noHostAlive, notHostAliveEv] at ha ⊢
          exact ha
        · intro h0
          exfalso
          rw [h0] at ht
          simp at ht
          omega
      · rw [if_neg ht]
        exact ⟨hs, rfl, rfl, rfl, fun _ => rfl⟩

theorem replyLoop_facts : ∀ (evs : List IcmpInfo) (p : PingState), StreakNonneg p →
    StreakNonneg (replyLoop p evs).1 ∧
    (replyLoop p evs).1.aliveCount = p.aliveCount ∧
    (replyLoop p evs).1.deadCount = p.deadCount ∧
    (p.aliveCount = 0 → noHostAlive (replyLoop p evs).2 = true) ∧
    noHostDead (replyLoop p evs).2 = true
  | [], p, h => ⟨h, rfl, rfl, fun _ => rfl, rfl⟩
  | i :: rest, p, h => by
    obtain ⟨h1, h2, h3, h4, h5⟩ := processReply_facts p i h
    obtain ⟨g1, g2, g3, g4, g5⟩ := replyLoop_facts rest (processReply p i).1 h1
    refine ⟨g1, g2.trans h2, g3.trans h3, ?_, ?_⟩
    · intro h0
      simp only [replyLoop, noHostAlive_append, Bool.and_eq_true]
      exact ⟨h4 h0, g4 (h2.trans h0)⟩
    · simp only [replyLoop, noHostDead_append, Bool.and_eq_true]
      exact ⟨h5, g5⟩

theorem timeoutLoop_facts : ∀ (ips : List String) (p : PingState), StreakNonneg p →
    StreakNonneg (timeoutLoop p ips).1 ∧
    (timeoutLoop p ips).1.aliveCount = p.aliveCount ∧
    (timeoutLoop p ips).1.deadCount = p.deadCount ∧
    noHostAlive (timeoutLoop p ips).2 = true ∧
    (p.deadCount = 0 → noHostDead (timeoutLoop p ips).2 = true)
  | [], p, h => ⟨h, rfl, rfl, rfl, fun _ => rfl⟩
  | ip :: rest, p, h => by
    obtain ⟨h1, h2, h3, h4, h5⟩ := timeoutOne_facts p ip h
    obtain ⟨g1, g2, g3, g4, g5⟩ := timeoutLoop_facts rest (timeoutOne p ip).1 h1
    refine ⟨g1, g2.trans h2, g3.trans h3, ?_, ?_⟩
    · simp only [timeoutLoop, noHostAlive_append, Bool.and_eq_true]
      exact ⟨h4, g4⟩
    · intro h0
      simp only [timeoutLoop, noHostDead_append, Bool.and_eq_true]
      exact ⟨h5 h0, g5 (h3.trans h0)⟩

theorem resetGotReply_streak (p : PingState) (h : StreakNonneg p) :
    StreakNonneg (resetGotReply p) := by
  intro kv hkv
  simp only [resetGotReply] at hkv
  rcases List.mem_map.mp hkv with ⟨kv0, hkv0, hkve⟩
  rw [← hkve]
  exact h kv0 hkv0

theorem round_facts (evs : List IcmpInfo) (p : PingState) (h : StreakNonneg p) :
    StreakNonneg (roundState evs p) ∧
    (roundState evs p).aliveCount = p.aliveCount ∧
    (roundState evs p).deadCount = p.deadCount ∧
    (p.aliveCount = 0 → noHostAlive (roundEvents evs p) = true) ∧
    (p.deadCount = 0 → noHostDead (roundEvents evs p) = true) := by
  have h0 : StreakNonneg (resetGotReply (bumpSeq p)) := resetGotReply_streak (bumpSeq p) h
  obtain ⟨r1, r2, r3, r4, r5⟩ := replyLoop_facts evs (resetGotReply (bumpSeq p)) h0
  obtain ⟨t1, t2, t3, t4, t5⟩ :=
    timeoutLoop_facts
      ((replyLoop (resetGotReply (bumpSeq p)) evs).1.send.map Prod.fst)
      (replyLoop (resetGotReply (bumpSeq p)) evs).1 r1
  refine ⟨t1, t2.trans r2, t3.trans r3, ?_, ?_⟩
  · intro ha
    show noHostAlive ((replyLoop (resetGotReply (bumpSeq p)) evs).2 ++
      (timeoutLoop (replyLoop (resetGotReply (bumpSeq p)) evs).1
        ((replyLoop (resetGotReply (bumpSeq p)) evs).1.send.map Prod.fst)).2) = true
    rw [noHostAlive_append, Bool.and_eq_true]
    exact ⟨r4 ha, t4⟩
  · intro hd
    show noHostDead ((replyLoop (resetGotReply (bumpSeq p)) evs).2 ++
      (timeoutLoop (replyLoop (resetGotReply (bumpSeq p)) evs).1
        ((replyLoop (resetGotReply (bumpSeq p)) evs).1.send.map Prod.fst)).2) = true
    rw [noHostDead_append, Bool.and_eq_true]
    exact ⟨r5, t5 (r3.trans hd)⟩

theorem trace_facts : ∀ (rounds : List (List IcmpInfo)) (p : PingState), StreakNonneg p →
    (p.aliveCount = 0 → (traceRun rounds p).2.all noHostAlive = true) ∧
    (p.deadCount = 0 → (traceRun rounds p).2.all noHostDead = true)
  | [], _, _ => ⟨fun _ => rfl, fun _ => rfl⟩
  | evs :: rest, p, h => by
    obtain ⟨s1, s2, s3, s4, s5⟩ := round_facts evs p h
    obtain ⟨u1, u2⟩ := trace_facts rest (roundState evs p) s1
    constructor
    · intro h0
      simp only [traceRun, List.all_cons, Bool.and_eq_true]
      exact ⟨s4 h0, u1 (s2.trans h0)⟩
    · intro h0
      simp only [traceRun, List.all_cons, Bool.and_eq_true]
      exact ⟨s5 h0, u2 (s3.trans h0)⟩

theorem mkSendAux_init : ∀ (ips : List String) (m : List (String × RemoteInfo)),
    (∀ kv ∈ m, kv.2 = initRemote) → ∀ kv ∈ mkSendAux m ips, kv.2 = initRemote
  | [], _, h => h
  | ip :: rest, m, h => by
    apply mkSendAux_init rest
    intro kv hkv
    cases hm : mlookup m ip with
    | some v =>
      rw [minsert_some m ip initRemote v hm] at hkv
      rcases mupdate_mem hkv with hkv | hkv
      · exact h kv hkv
      · rw [hkv]
    | none =>
      rw [minsert_none m ip initRemote hm] at hkv
      rcases List.mem_append.mp hkv with hkv | hkv
      · exact h kv hkv
      · rw [List.mem_singleton] at hkv
        rw [hkv]

theorem mkState_streak (pid : Nat) (a : Args) : StreakNonneg (mkState pid a) := by
  intro kv hkv
  have he : kv.2 = initRemote := mkSendAux_init a.ips [] (by intro kv h; cases h) kv hkv
  rw [he]
  exact le_refl 0

/-- C9: a configuration with a zero `aliveCount` (respectively
`deadCount`) is accepted — construction succeeds — and the corresponding
host transition is silently disabled: over every finite run from the
initial state, no host-alive (respectively host-dead) record is ever
emitted, because the streak counter compared (by exact equality) to the
threshold is always at least 1. -/
theorem c9_zero_threshold_silently_disabled (pid : Nat) (a : Args)
    (fail : String → Bool) (rounds : List (List IcmpInfo)) :
    (a.aliveCount = 0 →
      isOkE (newPing (Except.ok pid) a) = true ∧
      (traceOut fail rounds (mkState pid a)).2.all noHostAlive = true) ∧
    (a.deadCount = 0 →
      isOkE (newPing (Except.ok pid) a) = true ∧
      (traceOut fail rounds (mkState pid a)).2.all noHostDead = true) := by
  obtain ⟨u1, u2⟩ := trace_facts rounds (mkState pid a) (mkState_streak pid a)
  rw [traceOut_eq]
  exact ⟨fun h0 => ⟨rfl, u1 h0⟩, fun h0 => ⟨rfl, u2 h0⟩⟩

theorem c9_witness :
    (isOkE (newPing (Except.ok 1) args0) = true ∧
      (traceOut noFail rounds3T (mkState 1 args0)).2.all noHostAlive = true) ∧
    (isOkE (newPing (Except.ok 1) args0) = true ∧
      (traceOut noFail rounds3T (mkState 1 args0)).2.all noHostDead = true) :=
  ⟨(c9_zero_threshold_silently_disabled 1 args0 noFail rounds3T).1 rfl,
    (c9_zero_threshold_silently_disabled 1 args0 noFail rounds3T).2 rfl⟩

theorem c10_witness :
    (mkState 1 ⟨3, 3, 0, 0, "", "", [host1]⟩).groupAlive = [host1].length ∧
    (mkState 1 ⟨3, 3, 0, 0, "", "", [host1]⟩).groupAlive ≠ 0 :=
  c10_zero_group_alive_is_count 1 3 3 0 0 "" "" [host1] (by decide) (by decide)

end NetPinger
